import Mathlib

set_option maxRecDepth 100000

/-!
Verification of the daily-task-checker device firmware.

The development shallowly embeds the two firmware variants of the
repository:

* `src/src/app.ino` — the bounded-attempts variant (retry counter
  `errorRetryAttemptCount`, `MAX_API_UPDATE_RETRIES = 3`,
  `API_UPDATE_RETRY_INTERVAL_MS = 3000`, `SUCCESS_EFFECT_DURATION = 1000`);
* `src/unnamed/part_000` — the timeout-window variant (no retry counter, a
  single 5000 ms window from the first failure,
  `SUCCESS_EFFECT_DURATION = 2000`).

One pass of `loop()` is modelled as a pure function on a record of the
globals, parameterised by the per-tick inputs (button edge, `millis()`,
WiFi status, NTP wall clock, and the results of the blocking calls made
inside the loop).  The FreeRTOS worker `apiTaskFunction` is modelled as a
separate atomic step.  All calls to `millis()` inside one loop pass are
identified with the `currentTime` captured at the top of the pass.
-/

/-- The state enumeration `enum class DeviceState` (both variants). -/
inductive DeviceState where
  | INITIALIZING
  | TASK_PENDING
  | API_REQUEST_PENDING
  | API_CONNECTING
  | EFFECT_SUCCESS
  | TASK_COMPLETED
  | ERROR_RETRYING
  | ERROR_FAILED
deriving DecidableEq, Repr

open DeviceState

/-- Constant `MAX_API_UPDATE_RETRIES = 3` (app.ino line 26). -/
def MAX_API_UPDATE_RETRIES : Nat := 3

/-- Constant `API_UPDATE_RETRY_INTERVAL_MS = 3000` (app.ino line 27). -/
def API_UPDATE_RETRY_INTERVAL_MS : Nat := 3000

/-- Constant `SUCCESS_EFFECT_DURATION = 1000` (app.ino line 18). -/
def SUCCESS_EFFECT_DURATION : Nat := 1000

/-- Wrap-around subtraction of `unsigned long` (32-bit) values, as in
`currentTime - animationStartTime` on the ESP32. -/
def u32sub (a b : Nat) : Nat :=
  (a % 4294967296 + 4294967296 - b % 4294967296) % 4294967296

/-- The mutable globals of `app.ino` that the control loop and the API
worker task read and write. -/
structure SysState where
  currentState : DeviceState
  newTargetTaskState : Bool
  apiRequestPending : Bool
  apiResultSuccess : Bool
  apiResultReceived : Bool
  errorRetryAttemptCount : Nat
  lastApiRetryAttemptTime : Nat
  animationStartTime : Nat
  midnightResetExecuted : Bool
  lastResetDay : Int
  apiTaskCreated : Bool
deriving DecidableEq, Repr

/-- The external inputs sampled during one pass of `loop()`: the value of
`millis()` at the top of the pass, the debounced button edge
(`M5.Btn.wasPressed()`), `WiFi.status() == WL_CONNECTED`,
`timeClient.isTimeSet()` and the NTP wall clock, and the results of the
blocking calls `ensureWiFiConnected()` / `getInitialTaskState()` made by
the error-recovery branch (`none` models a failed fetch). -/
structure TickInput where
  currentTime : Nat
  buttonPressed : Bool
  wifiConnected : Bool
  timeSet : Bool
  day : Int
  hours : Nat
  minutes : Nat
  seconds : Nat
  recoveryWifiOk : Bool
  recoveryFetch : Option Bool
deriving DecidableEq, Repr

/-- Block 1 of `loop()` (app.ino lines 176–191): consume a worker result.
`startSuccessEffect()` sets `animationStartTime = millis()`. -/
def processApiResult (s : SysState) (i : TickInput) : SysState :=
  if s.apiResultReceived then
    if s.currentState = API_CONNECTING then
      if s.apiResultSuccess then
        { s with currentState := EFFECT_SUCCESS,
                 animationStartTime := i.currentTime,
                 errorRetryAttemptCount := 0,
                 apiResultReceived := false }
      else
        { s with currentState := ERROR_RETRYING,
                 lastApiRetryAttemptTime := i.currentTime,
                 animationStartTime := i.currentTime,
                 apiResultReceived := false }
    else
      { s with apiResultReceived := false }
  else s

/-- Block 2 of `loop()` (app.ino lines 194–228): button input.  The guard
is `M5.Btn.wasPressed() && apiTaskHandle != NULL && !apiRequestPending`.
In the error-recovery branch the count is reset only when the state before
the recovery attempt was `ERROR_RETRYING` and the fetch succeeded. -/
def processButton (s : SysState) (i : TickInput) : SysState :=
  if i.buttonPressed && s.apiTaskCreated && !s.apiRequestPending then
    if s.currentState = TASK_PENDING then
      { s with newTargetTaskState := true,
               apiRequestPending := true,
               errorRetryAttemptCount := 0,
               currentState := API_REQUEST_PENDING }
    else if s.currentState = TASK_COMPLETED then
      { s with newTargetTaskState := false,
               apiRequestPending := true,
               errorRetryAttemptCount := 0,
               currentState := API_REQUEST_PENDING }
    else if s.currentState = ERROR_FAILED ∨ s.currentState = ERROR_RETRYING then
      if i.recoveryWifiOk then
        match i.recoveryFetch with
        | some fetched =>
            { s with currentState := if fetched then TASK_COMPLETED else TASK_PENDING,
                     errorRetryAttemptCount :=
                       if s.currentState = ERROR_RETRYING then 0
                       else s.errorRetryAttemptCount }
        | none => { s with currentState := ERROR_FAILED }
      else
        { s with currentState := ERROR_FAILED }
    else s
  else s

/-- Block 3 of `loop()` (app.ino lines 231–234): the
`API_REQUEST_PENDING → API_CONNECTING` handoff;
`startApiConnectingAnimation()` sets `animationStartTime = millis()`. -/
def processHandoff (s : SysState) (i : TickInput) : SysState :=
  if s.currentState = API_REQUEST_PENDING ∧ s.apiRequestPending then
    { s with currentState := API_CONNECTING,
             animationStartTime := i.currentTime }
  else s

/-- Block 4 of `loop()` (app.ino lines 237–254): the time-based exits from
`EFFECT_SUCCESS` and `ERROR_RETRYING`. -/
def processTimeBased (s : SysState) (i : TickInput) : SysState :=
  let s1 :=
    if s.currentState = EFFECT_SUCCESS ∧
        u32sub i.currentTime s.animationStartTime > SUCCESS_EFFECT_DURATION then
      { s with currentState :=
                 if s.newTargetTaskState then TASK_COMPLETED else TASK_PENDING }
    else s
  if s1.currentState = ERROR_RETRYING then
    if s1.errorRetryAttemptCount < MAX_API_UPDATE_RETRIES then
      if u32sub i.currentTime s1.lastApiRetryAttemptTime ≥ API_UPDATE_RETRY_INTERVAL_MS then
        { s1 with apiRequestPending := true,
                  currentState := API_REQUEST_PENDING,
                  lastApiRetryAttemptTime := i.currentTime,
                  errorRetryAttemptCount := s1.errorRetryAttemptCount + 1 }
      else s1
    else
      { s1 with currentState := ERROR_FAILED }
  else s1

/-- The wall-clock match of the daily reset
(`getHours() == 15 && getMinutes() == 1 && getSeconds() < 10`). -/
def resetWindowMatch (i : TickInput) : Bool :=
  i.hours == 15 && i.minutes == 1 && i.seconds < 10

/-- Block 5 of `loop()` (app.ino lines 257–272): the midnight reset.  Note
that it runs regardless of `currentState`. -/
def processMidnightReset (s : SysState) (i : TickInput) : SysState :=
  if i.wifiConnected && i.timeSet then
    if resetWindowMatch i then
      if !s.midnightResetExecuted || s.lastResetDay ≠ i.day then
        { s with newTargetTaskState := false,
                 apiRequestPending := true,
                 errorRetryAttemptCount := 0,
                 currentState := API_REQUEST_PENDING,
                 midnightResetExecuted := true,
                 lastResetDay := i.day }
      else s
    else
      { s with midnightResetExecuted := false }
  else s

/-- Whether the reset branch fires its then-arm on this tick (the blocks
before it never touch `midnightResetExecuted` or `lastResetDay`, so the
condition may be read off the pre-tick state). -/
def resetFires (s : SysState) (i : TickInput) : Bool :=
  i.wifiConnected && i.timeSet && resetWindowMatch i &&
    (!s.midnightResetExecuted || s.lastResetDay ≠ i.day)

/-- One full pass of `loop()` in `app.ino`: the five blocks in program
order.  (The display-update tail touches no core state.) -/
def loopStep (s : SysState) (i : TickInput) : SysState :=
  processMidnightReset
    (processTimeBased
      (processHandoff
        (processButton (processApiResult s i) i) i) i) i

/-- One poll of the worker `apiTaskFunction` (app.ino lines 298–313),
taken atomically: if a request is pending the worker performs the HTTP
call (its success folded into `outcome`), publishes the result and clears
the request slot. -/
def apiTaskStep (outcome : Bool) (s : SysState) : SysState :=
  if s.apiRequestPending then
    { s with apiResultSuccess := outcome,
             apiResultReceived := true,
             apiRequestPending := false }
  else s

/-- The initial values of the globals at boot. -/
def initialState : SysState :=
  { currentState := INITIALIZING
    newTargetTaskState := false
    apiRequestPending := false
    apiResultSuccess := false
    apiResultReceived := false
    errorRetryAttemptCount := 0
    lastApiRetryAttemptTime := 0
    animationStartTime := 0
    midnightResetExecuted := false
    lastResetDay := -1
    apiTaskCreated := false }

/-- The `setup()` function (app.ino lines 93–168) as a function of the environment:
whether WiFi associated, whether `xTaskCreatePinnedToCore` produced a
handle, and the result of the initial `getInitialTaskState` (`none` =
fetch failed).  When WiFi is up, a failed task creation first sets
`ERROR_FAILED`, but the unconditional initial-fetch block then overwrites
`currentState`; a failed fetch defaults to `TASK_PENDING`. -/
def setupState (wifiOk taskCreated : Bool) (initialFetch : Option Bool) : SysState :=
  if wifiOk then
    let s1 := { initialState with apiTaskCreated := taskCreated }
    let s2 := if taskCreated then s1 else { s1 with currentState := ERROR_FAILED }
    match initialFetch with
    | some b =>
        { s2 with currentState := if b then TASK_COMPLETED else TASK_PENDING }
    | none => { s2 with currentState := TASK_PENDING }
  else
    { initialState with currentState := ERROR_FAILED }

/-- An event of the closed system: a control-loop pass with its sampled
inputs, or one worker poll with the environment's response. -/
inductive Evt where
  | tick (i : TickInput)
  | api (outcome : Bool)
deriving Repr

/-- Run a sequence of events. -/
def runEvts (s : SysState) : List Evt → SysState
  | [] => s
  | Evt.tick i :: rest => runEvts (loopStep s i) rest
  | Evt.api b :: rest => runEvts (apiTaskStep b s) rest

/-- Number of ticks of a tick-only schedule on which the reset branch
fires. -/
def countFires (s : SysState) : List TickInput → Nat
  | [] => 0
  | i :: rest =>
      (if resetFires s i then 1 else 0) + countFires (loopStep s i) rest

/-- All states the closed system can be in: boot states and anything
reachable from them by loop passes and worker polls. -/
inductive Reachable : SysState → Prop where
  | boot (w tc : Bool) (f : Option Bool) : Reachable (setupState w tc f)
  | tick (s : SysState) (i : TickInput) : Reachable s → Reachable (loopStep s i)
  | api (s : SysState) (b : Bool) : Reachable s → Reachable (apiTaskStep b s)

/-! ## The timeout-window variant (`src/unnamed/part_000`)

This variant has no retry counter and no `lastApiRetryAttemptTime`; a
failed submission starts a single window at `animationStartTime`, and
`ERROR_RETRYING` decays to `ERROR_FAILED` once
`currentTime - animationStartTime > 5000`.  `SUCCESS_EFFECT_DURATION` is
2000 ms, and the button's error-recovery branch calls
`getInitialTaskState` directly (no `ensureWiFiConnected`). -/

namespace V2

/-- Constant `SUCCESS_EFFECT_DURATION = 2000` (part_000 line 33). -/
def SUCCESS_EFFECT_DURATION : Nat := 2000

/-- The retry window hard-coded at part_000 line 235. -/
def ERROR_RETRY_WINDOW_MS : Nat := 5000

/-- The mutable globals of `part_000` relevant to the core. -/
structure VState where
  currentState : DeviceState
  newTargetTaskState : Bool
  apiRequestPending : Bool
  apiResultSuccess : Bool
  apiResultReceived : Bool
  animationStartTime : Nat
  midnightResetExecuted : Bool
  lastResetDay : Int
  apiTaskCreated : Bool
deriving DecidableEq, Repr

/-- Result-consumption block (part_000 lines 184–197): failure records
the window start in `animationStartTime`. -/
def processApiResult (s : VState) (i : TickInput) : VState :=
  if s.apiResultReceived then
    if s.currentState = API_CONNECTING then
      if s.apiResultSuccess then
        { s with currentState := EFFECT_SUCCESS,
                 animationStartTime := i.currentTime,
                 apiResultReceived := false }
      else
        { s with currentState := ERROR_RETRYING,
                 animationStartTime := i.currentTime,
                 apiResultReceived := false }
    else
      { s with apiResultReceived := false }
  else s

/-- Button block (part_000 lines 200–223). -/
def processButton (s : VState) (i : TickInput) : VState :=
  if i.buttonPressed && s.apiTaskCreated && !s.apiRequestPending then
    if s.currentState = TASK_PENDING then
      { s with newTargetTaskState := true,
               apiRequestPending := true,
               currentState := API_REQUEST_PENDING }
    else if s.currentState = TASK_COMPLETED then
      { s with newTargetTaskState := false,
               apiRequestPending := true,
               currentState := API_REQUEST_PENDING }
    else if s.currentState = ERROR_FAILED ∨ s.currentState = ERROR_RETRYING then
      match i.recoveryFetch with
      | some fetched =>
          { s with currentState := if fetched then TASK_COMPLETED else TASK_PENDING }
      | none => { s with currentState := ERROR_FAILED }
    else s
  else s

/-- Handoff block (part_000 lines 226–229). -/
def processHandoff (s : VState) (i : TickInput) : VState :=
  if s.currentState = API_REQUEST_PENDING ∧ s.apiRequestPending then
    { s with currentState := API_CONNECTING,
             animationStartTime := i.currentTime }
  else s

/-- Time-based block (part_000 lines 232–238): success effect of 2000 ms,
and the 5000 ms error window ending in `ERROR_FAILED`. -/
def processTimeBased (s : VState) (i : TickInput) : VState :=
  let s1 :=
    if s.currentState = EFFECT_SUCCESS ∧
        u32sub i.currentTime s.animationStartTime > SUCCESS_EFFECT_DURATION then
      { s with currentState :=
                 if s.newTargetTaskState then TASK_COMPLETED else TASK_PENDING }
    else s
  if s1.currentState = ERROR_RETRYING ∧
      u32sub i.currentTime s1.animationStartTime > ERROR_RETRY_WINDOW_MS then
    { s1 with currentState := ERROR_FAILED }
  else s1

/-- Midnight-reset block (part_000 lines 241–255), identical logic to the
other variant (without a retry counter to clear). -/
def processMidnightReset (s : VState) (i : TickInput) : VState :=
  if i.wifiConnected && i.timeSet then
    if resetWindowMatch i then
      if !s.midnightResetExecuted || s.lastResetDay ≠ i.day then
        { s with newTargetTaskState := false,
                 apiRequestPending := true,
                 currentState := API_REQUEST_PENDING,
                 midnightResetExecuted := true,
                 lastResetDay := i.day }
      else s
    else
      { s with midnightResetExecuted := false }
  else s

/-- One pass of `loop()` in `part_000`. -/
def loopStep (s : VState) (i : TickInput) : VState :=
  processMidnightReset
    (processTimeBased
      (processHandoff
        (processButton (processApiResult s i) i) i) i) i

/-- One poll of `apiTaskFunction` (part_000 lines 281–296). -/
def apiTaskStep (outcome : Bool) (s : VState) : VState :=
  if s.apiRequestPending then
    { s with apiResultSuccess := outcome,
             apiResultReceived := true,
             apiRequestPending := false }
  else s

end V2


/-! ## Scenario inputs

Concrete tick inputs used by the scenario theorems below.  `quietTick` is
an uneventful poll (no button edge, WiFi up, clock synced, wall clock far
from the reset instant); `buttonTick` adds a button edge; `resetTick`
places the wall clock inside the reset window (15:01, seconds < 10). -/

/-- An uneventful control-loop poll at `millis() = t`. -/
def quietTick (t : Nat) : TickInput :=
  { currentTime := t, buttonPressed := false, wifiConnected := true, timeSet := true,
    day := 3, hours := 12, minutes := 0, seconds := 0,
    recoveryWifiOk := true, recoveryFetch := some false }

/-- A poll with a debounced button edge. -/
def buttonTick (t : Nat) : TickInput := { quietTick t with buttonPressed := true }

/-- A poll inside the daily reset window on day `d` at second `ss`. -/
def resetTick (t : Nat) (d : Int) (ss : Nat) : TickInput :=
  { quietTick t with hours := 15, minutes := 1, seconds := ss, day := d }

/-- A normal boot: WiFi up, worker task created, initial fetch returned
`NOT_DONE` — the device starts in `TASK_PENDING`. -/
def bootPending : SysState := setupState true true (some false)

/-- All states visited while running a schedule (including the first and
last). -/
def traceStates (s : SysState) : List Evt → List SysState
  | [] => [s]
  | Evt.tick i :: rest => s :: traceStates (loopStep s i) rest
  | Evt.api b :: rest => s :: traceStates (apiTaskStep b s) rest

/-- C2 schedule: a button press, then three submission failures, each
followed by ≥ 3000 ms spent in `ERROR_RETRYING` before the next automatic
retry; after the third failure's wait the machine schedules a fourth
attempt, which never completes in this schedule. -/
def c2ThreeFailures : List Evt :=
  [Evt.tick (buttonTick 1000), Evt.api false, Evt.tick (quietTick 1100),
   Evt.tick (quietTick 4200), Evt.tick (quietTick 4300), Evt.api false,
   Evt.tick (quietTick 4400), Evt.tick (quietTick 7500), Evt.tick (quietTick 7600),
   Evt.api false, Evt.tick (quietTick 7700), Evt.tick (quietTick 10800),
   Evt.tick (quietTick 10900), Evt.tick (quietTick 20000)]

/-- C2 schedule extended with a fourth submission failure, after which the
retry budget (`errorRetryAttemptCount = 3`) is exhausted and the machine
falls to `ERROR_FAILED`. -/
def c2FourFailures : List Evt :=
  [Evt.tick (buttonTick 1000), Evt.api false, Evt.tick (quietTick 1100),
   Evt.tick (quietTick 4200), Evt.tick (quietTick 4300), Evt.api false,
   Evt.tick (quietTick 4400), Evt.tick (quietTick 7500), Evt.tick (quietTick 7600),
   Evt.api false, Evt.tick (quietTick 7700), Evt.tick (quietTick 10800),
   Evt.tick (quietTick 10900), Evt.api false, Evt.tick (quietTick 11000),
   Evt.tick (quietTick 11100)]

/-- C2 schedule where the first automatic retry (the 2nd submission
attempt) succeeds. -/
def c2SecondSuccess : List Evt :=
  [Evt.tick (buttonTick 1000), Evt.api false, Evt.tick (quietTick 1100),
   Evt.tick (quietTick 4200), Evt.tick (quietTick 4300), Evt.api true,
   Evt.tick (quietTick 4400)]

/-- C4: ticks crossing 15:00:59 → 15:01:09 on day 3 with synchronized
time. -/
def c4PassA : List TickInput :=
  [{ quietTick 1000 with hours := 15, minutes := 0, seconds := 59 },
   resetTick 2000 3 0, resetTick 3000 3 5, resetTick 4000 3 9]

/-- C4: a tick after the matching minute (15:02:00, same day) — the code
clears `midnightResetExecuted` here. -/
def c4LeaveWindow : TickInput :=
  { quietTick 5000 with hours := 15, minutes := 2, seconds := 0 }

/-- C4: the same day's matching minute revisited. -/
def c4Replay : TickInput := resetTick 6000 3 5

/-- C4: the next day's matching minute. -/
def c4NextDay : TickInput := resetTick 7000 4 5

/-- C1/C6: the state after a button press from `TASK_PENDING` — a request
with target `DONE` is in flight (`API_CONNECTING`, slot occupied). -/
def c1MidFlight : SysState := runEvts bootPending [Evt.tick (buttonTick 1000)]

/-- C1: a reset-window tick arriving while the request is in flight. -/
def c1ResetTick : TickInput := resetTick 2000 3 5

/-- C6: another in-flight state (button press at a different instant). -/
def c6MidFlight : SysState := runEvts bootPending [Evt.tick (buttonTick 500)]

/-- C6: a reset-window tick while the slot is still occupied. -/
def c6ResetTick : TickInput := resetTick 600 3 2

/-- C6: the state after the reset branch re-enqueued into the occupied
slot. -/
def c6AfterReset : SysState := loopStep c6MidFlight c6ResetTick

/-- C6: the state after the worker drains the (single) slot once. -/
def c6Drained : SysState := apiTaskStep true c6AfterReset

/-- C5: a boot with no WiFi — the device starts in `ERROR_FAILED`. -/
def c5FailedBoot : SysState := setupState false true none

/-- C8: a timeout-window device sitting in `ERROR_RETRYING` since the
failure consumed at `millis() = 1000`. -/
def v2RetryState : V2.VState :=
  { currentState := ERROR_RETRYING, newTargetTaskState := true,
    apiRequestPending := false, apiResultSuccess := false,
    apiResultReceived := false, animationStartTime := 1000,
    midnightResetExecuted := false, lastResetDay := 3, apiTaskCreated := true }

/-- C8: the corresponding in-flight state just before the failure is
consumed. -/
def v2FailureArrived : V2.VState :=
  { v2RetryState with currentState := API_CONNECTING, apiResultReceived := true }

/-! ## Theorems -/

/-- Claim C1 (code bug in the source): the daily reset trigger is NOT
deferred while a request is in flight.  From `TASK_PENDING`, a button
press puts a request with target `DONE` in flight (`API_CONNECTING`, slot
occupied); when a reset-window tick arrives on that tick the trigger
fires anyway, yanks the state to `API_REQUEST_PENDING` and overwrites the
in-flight target to `NOT_DONE`, instead of being deferred to a resting
state as the spec requires. -/
theorem c1_reset_fires_mid_flight :
    c1MidFlight.currentState = API_CONNECTING ∧
    c1MidFlight.apiRequestPending = true ∧
    c1MidFlight.newTargetTaskState = true ∧
    resetFires c1MidFlight c1ResetTick = true ∧
    (loopStep c1MidFlight c1ResetTick).currentState = API_REQUEST_PENDING ∧
    (loopStep c1MidFlight c1ResetTick).newTargetTaskState = false := by
  decide

/-- Claim C2 (counterexample): three consecutive submission failures, each
followed by ≥ 3000 ms in `ERROR_RETRYING`, do NOT bring the machine to
`ERROR_FAILED`: after the third failure's wait the machine schedules a
*fourth* attempt (`errorRetryAttemptCount` reaches 3 only then) and sits
in `API_CONNECTING`; no state along the schedule is `ERROR_FAILED`.  The
checkpoints confirm the schedule does contain three failures, each
consumed into `ERROR_RETRYING` and followed by a ≥ 3000 ms gap. -/
theorem c2_three_failures_do_not_reach_failed :
    (runEvts bootPending (c2ThreeFailures.take 3)).currentState = ERROR_RETRYING ∧
    (runEvts bootPending (c2ThreeFailures.take 7)).currentState = ERROR_RETRYING ∧
    (runEvts bootPending (c2ThreeFailures.take 11)).currentState = ERROR_RETRYING ∧
    (traceStates bootPending c2ThreeFailures).all
      (fun s => s.currentState != ERROR_FAILED) = true ∧
    (runEvts bootPending c2ThreeFailures).currentState = API_CONNECTING := by
  decide

/-- Claim C2 (amended): with `maxAttempts = 3` and `intervalMs = 3000`,
*four* consecutive submission failures — the initial attempt plus the
three automatic retries, each failure followed by ≥ 3000 ms in
`ERROR_RETRYING` — bring the machine to `ERROR_FAILED`; a success on the
2nd attempt reaches `EFFECT_SUCCESS` instead, with
`errorRetryAttemptCount` reset to 0. -/
theorem c2_retry_policy_amended :
    (runEvts bootPending c2FourFailures).currentState = ERROR_FAILED ∧
    (runEvts bootPending c2SecondSuccess).currentState = EFFECT_SUCCESS ∧
    (runEvts bootPending c2SecondSuccess).errorRetryAttemptCount = 0 := by
  decide

/-- Claim C3 (counterexample): when connectivity was established but the
initial fetch fails, `setup()` does NOT go to `ERROR_FAILED`; it defaults
to `TASK_PENDING` (app.ino line 158: "Defaulting to PENDING"). -/
theorem c3_fetch_failure_defaults_to_pending :
    (setupState true true none).currentState = TASK_PENDING ∧
    (setupState true true none).currentState ≠ ERROR_FAILED := by
  decide

/-- Claim C3 (amended): only a WiFi-connection failure at boot sends
`Initializing` to `ERROR_FAILED` (without ever entering
`TASK_PENDING`/`TASK_COMPLETED`); if connectivity is up but the initial
fetch fails, the machine instead defaults to `TASK_PENDING`. -/
theorem c3_setup_outcomes :
    ∀ (tc : Bool) (f : Option Bool),
      (setupState false tc f).currentState = ERROR_FAILED ∧
      (setupState true tc none).currentState = TASK_PENDING := by
  decide

/-- Claim C4 (counterexample): replaying the same matching minute on the
same calendar day does NOT fire zero additional times.  Leaving the
window clears `midnightResetExecuted`, and the firing condition is
`!midnightResetExecuted || lastResetDay != currentDay`, so revisiting
day 3's matching minute fires a second time: the schedule below stays on
day 3 throughout yet fires twice. -/
theorem c4_replay_same_day_fires_again :
    countFires bootPending (c4PassA ++ [c4LeaveWindow, c4Replay]) = 2 ∧
    (c4PassA ++ [c4LeaveWindow, c4Replay]).all (fun i => i.day == 3) = true := by
  decide

/-- Claim C4 (amended): crossing 15:00:59 → 15:01:09 with synchronized time
fires exactly once, and the next day's matching minute fires again; but
replaying the same day's matching minute after leaving the window fires
once more (it is not suppressed), because `midnightResetExecuted` is
cleared outside the window and `lastResetDay` alone does not block the
`!executed || lastResetDay != day` condition. -/
theorem c4_scheduler_fires :
    countFires bootPending c4PassA = 1 ∧
    countFires bootPending (c4PassA ++ [c4LeaveWindow, c4NextDay]) = 2 ∧
    countFires bootPending (c4PassA ++ [c4LeaveWindow, c4Replay, c4NextDay]) = 3 := by
  decide

/-- Claim C5 (counterexample): a scheduled event alone CAN move the machine
out of `ERROR_FAILED`: with no button press, a reset-window tick moves a
failed device to `API_REQUEST_PENDING`. -/
theorem c5_reset_exits_failed :
    c5FailedBoot.currentState = ERROR_FAILED ∧
    (resetTick 1000 3 5).buttonPressed = false ∧
    (loopStep c5FailedBoot (resetTick 1000 3 5)).currentState = API_REQUEST_PENDING := by
  decide

/-- Claim C6 (code bug in the source): the single-slot handshake is
violated by the daily reset.  With a button request still occupying the
slot (`apiRequestPending = true`, target `DONE`, worker not yet run), a
reset-window tick enqueues a second logical request into the occupied
slot, overwriting the target to `NOT_DONE`; the worker then drains the
slot once, producing a single outcome for the two logical requests (a
second worker poll is a no-op), so one outcome is lost. -/
theorem c6_reset_enqueues_into_occupied_slot :
    c6MidFlight.apiRequestPending = true ∧
    c6MidFlight.newTargetTaskState = true ∧
    resetFires c6MidFlight c6ResetTick = true ∧
    c6AfterReset.apiRequestPending = true ∧
    c6AfterReset.newTargetTaskState = false ∧
    c6Drained.apiResultReceived = true ∧
    c6Drained.apiRequestPending = false ∧
    apiTaskStep false c6Drained = c6Drained := by
  decide

/-- Claim C9: a worker result arriving while the state is not
`API_CONNECTING` is silently discarded by the result-processing block:
the flag is cleared and every other global — state, target, retry
counters, timestamps — is left unchanged. -/
theorem c9_stale_result_discarded :
    ∀ (s : SysState) (i : TickInput),
      s.apiResultReceived = true →
      s.currentState ≠ API_CONNECTING →
      processApiResult s i = { s with apiResultReceived := false } := by
  intro s i hr hs
  simp [processApiResult, hr, hs]

/-! ### Per-block transition lemmas

Each lemma states the exact effect of one block of `loop()` in one of its
branches; the scenario theorems chain them. -/

theorem processApiResult_idle (s : SysState) (i : TickInput)
    (h : s.apiResultReceived = false) : processApiResult s i = s := by
  simp [processApiResult, h]

theorem processApiResult_not_connecting (s : SysState) (i : TickInput)
    (h : s.currentState ≠ API_CONNECTING) :
    processApiResult s i = { s with apiResultReceived := false } := by
  obtain ⟨st, tgt, pend, succ, recv, cnt, lra, anim, exec, ld, created⟩ := s
  cases recv <;> simp_all [processApiResult]

theorem processApiResult_consume_success (s : SysState) (i : TickInput)
    (hr : s.apiResultReceived = true) (hs : s.currentState = API_CONNECTING)
    (ho : s.apiResultSuccess = true) :
    processApiResult s i =
      { s with currentState := EFFECT_SUCCESS,
               animationStartTime := i.currentTime,
               errorRetryAttemptCount := 0,
               apiResultReceived := false } := by
  simp [processApiResult, hr, hs, ho]

theorem processApiResult_consume_failure (s : SysState) (i : TickInput)
    (hr : s.apiResultReceived = true) (hs : s.currentState = API_CONNECTING)
    (ho : s.apiResultSuccess = false) :
    processApiResult s i =
      { s with currentState := ERROR_RETRYING,
               lastApiRetryAttemptTime := i.currentTime,
               animationStartTime := i.currentTime,
               apiResultReceived := false } := by
  simp [processApiResult, hr, hs, ho]

theorem processButton_no_button (s : SysState) (i : TickInput)
    (h : i.buttonPressed = false) : processButton s i = s := by
  simp [processButton, h]

theorem processButton_press_from_pending (s : SysState) (i : TickInput)
    (hb : i.buttonPressed = true) (hc : s.apiTaskCreated = true)
    (hp : s.apiRequestPending = false) (hs : s.currentState = TASK_PENDING) :
    processButton s i =
      { s with newTargetTaskState := true,
               apiRequestPending := true,
               errorRetryAttemptCount := 0,
               currentState := API_REQUEST_PENDING } := by
  simp [processButton, hb, hc, hp, hs]

theorem processButton_press_from_completed (s : SysState) (i : TickInput)
    (hb : i.buttonPressed = true) (hc : s.apiTaskCreated = true)
    (hp : s.apiRequestPending = false) (hs : s.currentState = TASK_COMPLETED) :
    processButton s i =
      { s with newTargetTaskState := false,
               apiRequestPending := true,
               errorRetryAttemptCount := 0,
               currentState := API_REQUEST_PENDING } := by
  simp [processButton, hb, hc, hp, hs]

theorem processHandoff_go (s : SysState) (i : TickInput)
    (hs : s.currentState = API_REQUEST_PENDING) (hp : s.apiRequestPending = true) :
    processHandoff s i =
      { s with currentState := API_CONNECTING,
               animationStartTime := i.currentTime } := by
  simp [processHandoff, hs, hp]

theorem processHandoff_skip (s : SysState) (i : TickInput)
    (hs : s.currentState ≠ API_REQUEST_PENDING) : processHandoff s i = s := by
  simp [processHandoff, hs]

theorem processTimeBased_idle (s : SysState) (i : TickInput)
    (h1 : s.currentState ≠ EFFECT_SUCCESS) (h2 : s.currentState ≠ ERROR_RETRYING) :
    processTimeBased s i = s := by
  simp [processTimeBased, h1, h2]

theorem processTimeBased_effect_done (s : SysState) (i : TickInput)
    (hs : s.currentState = EFFECT_SUCCESS)
    (ht : u32sub i.currentTime s.animationStartTime > SUCCESS_EFFECT_DURATION) :
    processTimeBased s i =
      { s with currentState :=
                 if s.newTargetTaskState then TASK_COMPLETED else TASK_PENDING } := by
  cases htgt : s.newTargetTaskState <;> simp [processTimeBased, hs, ht, htgt]

theorem processTimeBased_retry_go (s : SysState) (i : TickInput)
    (hs : s.currentState = ERROR_RETRYING)
    (hcnt : s.errorRetryAttemptCount < MAX_API_UPDATE_RETRIES)
    (ht : u32sub i.currentTime s.lastApiRetryAttemptTime ≥ API_UPDATE_RETRY_INTERVAL_MS) :
    processTimeBased s i =
      { s with apiRequestPending := true,
               currentState := API_REQUEST_PENDING,
               lastApiRetryAttemptTime := i.currentTime,
               errorRetryAttemptCount := s.errorRetryAttemptCount + 1 } := by
  simp [processTimeBased, hs, hcnt, ht]

theorem processTimeBased_retry_wait (s : SysState) (i : TickInput)
    (hs : s.currentState = ERROR_RETRYING)
    (hcnt : s.errorRetryAttemptCount < MAX_API_UPDATE_RETRIES)
    (ht : ¬ u32sub i.currentTime s.lastApiRetryAttemptTime ≥ API_UPDATE_RETRY_INTERVAL_MS) :
    processTimeBased s i = s := by
  simp [processTimeBased, hs, hcnt, ht]

theorem processTimeBased_retry_exhausted (s : SysState) (i : TickInput)
    (hs : s.currentState = ERROR_RETRYING)
    (hcnt : ¬ s.errorRetryAttemptCount < MAX_API_UPDATE_RETRIES) :
    processTimeBased s i = { s with currentState := ERROR_FAILED } := by
  simp [processTimeBased, hs, hcnt]

theorem processMidnightReset_no_window (s : SysState) (i : TickInput)
    (hw : resetWindowMatch i = false) :
    processMidnightReset s i =
      { s with midnightResetExecuted :=
                 !(i.wifiConnected && i.timeSet) && s.midnightResetExecuted } := by
  obtain ⟨st, tgt, pend, succ, recv, cnt, lra, anim, exec, ld, created⟩ := s
  cases hwf : i.wifiConnected <;> cases hts : i.timeSet <;>
    cases exec <;> simp_all [processMidnightReset]

theorem processMidnightReset_state_of_no_fire (s : SysState) (i : TickInput)
    (h : resetFires s i = false) :
    (processMidnightReset s i).currentState = s.currentState := by
  obtain ⟨st, tgt, pend, succ, recv, cnt, lra, anim, exec, ld, created⟩ := s
  simp only [resetFires] at h
  cases hwf : i.wifiConnected <;> cases hts : i.timeSet <;>
    cases hw : resetWindowMatch i <;>
      simp_all [processMidnightReset]

theorem apiTaskStep_go (s : SysState) (b : Bool) (hp : s.apiRequestPending = true) :
    apiTaskStep b s =
      { s with apiResultSuccess := b,
               apiResultReceived := true,
               apiRequestPending := false } := by
  simp [apiTaskStep, hp]

/-- Claim C5 (amended): without a button press and without the daily reset
trigger firing on that tick, no loop pass leaves `ERROR_FAILED`; in
particular no plain timer expiry does. -/
theorem c5_failed_needs_button_or_reset :
    ∀ (s : SysState) (i : TickInput),
      s.currentState = ERROR_FAILED →
      i.buttonPressed = false →
      resetFires s i = false →
      (loopStep s i).currentState = ERROR_FAILED := by
  intro s i hs hb hr
  have h1 := processApiResult_not_connecting s i (by simp [hs])
  have h2 := processButton_no_button { s with apiResultReceived := false } i hb
  have h3 := processHandoff_skip { s with apiResultReceived := false } i (by simp [hs])
  have h4 := processTimeBased_idle { s with apiResultReceived := false } i
    (by simp [hs]) (by simp [hs])
  have h5 := processMidnightReset_state_of_no_fire { s with apiResultReceived := false } i hr
  unfold loopStep
  rw [h1, h2, h3, h4, h5]
  exact hs

theorem u32sub_self (a : Nat) : u32sub a a = 0 := by
  simp [u32sub]

theorem processTimeBased_effect_wait (s : SysState) (i : TickInput)
    (hs : s.currentState = EFFECT_SUCCESS)
    (ht : ¬ u32sub i.currentTime s.animationStartTime > SUCCESS_EFFECT_DURATION) :
    processTimeBased s i = s := by
  simp [processTimeBased, hs, ht]

/-- Witness for `c5_failed_needs_button_or_reset` at a concrete failed
boot and an uneventful tick. -/
theorem c5_failed_needs_button_or_reset_witness :
    c5FailedBoot.currentState = ERROR_FAILED ∧
    (quietTick 100).buttonPressed = false ∧
    resetFires c5FailedBoot (quietTick 100) = false ∧
    (loopStep c5FailedBoot (quietTick 100)).currentState = ERROR_FAILED :=
  ⟨by decide, by decide, by decide,
   c5_failed_needs_button_or_reset c5FailedBoot (quietTick 100)
     (by decide) (by decide) (by decide)⟩

/-- Witness for `c9_stale_result_discarded`: a `TASK_PENDING` device with
a stray result flag. -/
theorem c9_stale_result_discarded_witness :
    ({ bootPending with apiResultReceived := true } : SysState).apiResultReceived = true ∧
    ({ bootPending with apiResultReceived := true } : SysState).currentState ≠ API_CONNECTING ∧
    processApiResult { bootPending with apiResultReceived := true } (quietTick 7)
      = { { bootPending with apiResultReceived := true } with apiResultReceived := false } :=
  ⟨by decide, by decide,
   c9_stale_result_discarded { bootPending with apiResultReceived := true } (quietTick 7)
     (by decide) (by decide)⟩

/-- Claim C7: from a resting task state (`b = false`: `TASK_PENDING`,
`b = true`: `TASK_COMPLETED`) with an idle slot, a button press puts a
request in flight (`API_CONNECTING` on the same pass, through
`API_REQUEST_PENDING`), a successful outcome is consumed into
`EFFECT_SUCCESS`, and once the effect duration elapses the machine rests
in the opposite task state.  The three ticks carry no other events and
the wall clock is outside the reset window. -/
theorem c7_button_roundtrip :
    ∀ (b : Bool) (s : SysState) (i1 i2 i3 : TickInput),
      s.currentState = (if b then TASK_COMPLETED else TASK_PENDING) →
      s.apiRequestPending = false →
      s.apiResultReceived = false →
      s.apiTaskCreated = true →
      i1.buttonPressed = true → resetWindowMatch i1 = false →
      i2.buttonPressed = false → resetWindowMatch i2 = false →
      i3.buttonPressed = false → resetWindowMatch i3 = false →
      u32sub i3.currentTime i2.currentTime > SUCCESS_EFFECT_DURATION →
      (loopStep s i1).currentState = API_CONNECTING ∧
      (loopStep s i1).newTargetTaskState = !b ∧
      (loopStep (apiTaskStep true (loopStep s i1)) i2).currentState = EFFECT_SUCCESS ∧
      (loopStep (loopStep (apiTaskStep true (loopStep s i1)) i2) i3).currentState =
        (if b then TASK_PENDING else TASK_COMPLETED) := by
  intro b s i1 i2 i3 hs hp hr hc hb1 hw1 hb2 hw2 hb3 hw3 hdur
  cases b
  case false =>
    replace hs : s.currentState = TASK_PENDING := hs
    simp only [loopStep, processApiResult_idle, processButton_press_from_pending,
      processButton_no_button, processHandoff_go, processHandoff_skip,
      processTimeBased_idle, processTimeBased_effect_wait, processTimeBased_effect_done,
      processMidnightReset_no_window, apiTaskStep_go, processApiResult_consume_success,
      hs, hp, hr, hc, hb1, hw1, hb2, hw2, hb3, hw3, hdur, u32sub_self,
      Nat.not_lt_zero, gt_iff_lt, ne_eq, reduceCtorEq, not_false_eq_true]
    simp
  case true =>
    replace hs : s.currentState = TASK_COMPLETED := hs
    simp only [loopStep, processApiResult_idle, processButton_press_from_completed,
      processButton_no_button, processHandoff_go, processHandoff_skip,
      processTimeBased_idle, processTimeBased_effect_wait, processTimeBased_effect_done,
      processMidnightReset_no_window, apiTaskStep_go, processApiResult_consume_success,
      hs, hp, hr, hc, hb1, hw1, hb2, hw2, hb3, hw3, hdur, u32sub_self,
      Nat.not_lt_zero, gt_iff_lt, ne_eq, reduceCtorEq, not_false_eq_true]
    simp

/-- Witness for `c7_button_roundtrip` at a normally booted device and
three concrete ticks. -/
theorem c7_button_roundtrip_witness :
    (bootPending.currentState = (if false then TASK_COMPLETED else TASK_PENDING) ∧
     u32sub (quietTick 3500).currentTime (quietTick 2000).currentTime >
       SUCCESS_EFFECT_DURATION) ∧
    (loopStep bootPending (buttonTick 1000)).currentState = API_CONNECTING ∧
    (loopStep bootPending (buttonTick 1000)).newTargetTaskState = !false ∧
    (loopStep (apiTaskStep true (loopStep bootPending (buttonTick 1000)))
        (quietTick 2000)).currentState = EFFECT_SUCCESS ∧
    (loopStep (loopStep (apiTaskStep true (loopStep bootPending (buttonTick 1000)))
        (quietTick 2000)) (quietTick 3500)).currentState =
      (if false then TASK_PENDING else TASK_COMPLETED) := by
  refine ⟨⟨by decide, by decide⟩, ?_⟩
  exact c7_button_roundtrip false bootPending (buttonTick 1000) (quietTick 2000)
    (quietTick 3500) (by decide) (by decide) (by decide) (by decide) (by decide)
    (by decide) (by decide) (by decide) (by decide) (by decide) (by decide)

/-! ### Per-block lemmas for the timeout-window variant -/

theorem v2ApiResult_idle (s : V2.VState) (i : TickInput)
    (h : s.apiResultReceived = false) : V2.processApiResult s i = s := by
  simp [V2.processApiResult, h]

theorem v2ApiResult_consume_failure (s : V2.VState) (k : TickInput)
    (hr : s.apiResultReceived = true) (hs : s.currentState = API_CONNECTING)
    (ho : s.apiResultSuccess = false) :
    V2.processApiResult s k =
      { s with currentState := ERROR_RETRYING,
               animationStartTime := k.currentTime,
               apiResultReceived := false } := by
  simp [V2.processApiResult, hr, hs, ho]

theorem v2Button_no_button (s : V2.VState) (i : TickInput)
    (h : i.buttonPressed = false) : V2.processButton s i = s := by
  simp [V2.processButton, h]

theorem v2Button_recover_retrying (s : V2.VState) (i : TickInput) (b : Bool)
    (hs : s.currentState = ERROR_RETRYING) (hb : i.buttonPressed = true)
    (hc : s.apiTaskCreated = true) (hp : s.apiRequestPending = false)
    (hf : i.recoveryFetch = some b) :
    V2.processButton s i =
      { s with currentState := if b then TASK_COMPLETED else TASK_PENDING } := by
  simp [V2.processButton, hs, hb, hc, hp, hf]

theorem v2Handoff_skip (s : V2.VState) (i : TickInput)
    (hs : s.currentState ≠ API_REQUEST_PENDING) : V2.processHandoff s i = s := by
  simp [V2.processHandoff, hs]

theorem v2TimeBased_idle (s : V2.VState) (i : TickInput)
    (h1 : s.currentState ≠ EFFECT_SUCCESS) (h2 : s.currentState ≠ ERROR_RETRYING) :
    V2.processTimeBased s i = s := by
  simp [V2.processTimeBased, h1, h2]

theorem v2TimeBased_retry_wait (s : V2.VState) (i : TickInput)
    (hs : s.currentState = ERROR_RETRYING)
    (ht : ¬ u32sub i.currentTime s.animationStartTime > V2.ERROR_RETRY_WINDOW_MS) :
    V2.processTimeBased s i = s := by
  simp [V2.processTimeBased, hs, ht]

theorem v2TimeBased_retry_expired (s : V2.VState) (i : TickInput)
    (hs : s.currentState = ERROR_RETRYING)
    (ht : u32sub i.currentTime s.animationStartTime > V2.ERROR_RETRY_WINDOW_MS) :
    V2.processTimeBased s i = { s with currentState := ERROR_FAILED } := by
  simp [V2.processTimeBased, hs, ht]

theorem v2MidnightReset_no_window (s : V2.VState) (i : TickInput)
    (hw : resetWindowMatch i = false) :
    V2.processMidnightReset s i =
      { s with midnightResetExecuted :=
                 !(i.wifiConnected && i.timeSet) && s.midnightResetExecuted } := by
  obtain ⟨st, tgt, pend, succ, recv, anim, exec, ld, created⟩ := s
  cases hwf : i.wifiConnected <;> cases hts : i.timeSet <;>
    cases exec <;> simp_all [V2.processMidnightReset]

/-- Claim C8: the timeout-window variant's retry policy.  (1) a submission
failure starts the window by recording `animationStartTime` at the tick
that consumes the failure; (2) inside the 5000 ms window, with no button
press and the wall clock outside the reset window, a loop pass changes
neither the state, nor the request slot, nor the window start — in
particular no automatic re-submission occurs; (3) once the window has
elapsed, the pass moves `ERROR_RETRYING` to `ERROR_FAILED`; (4) a button
press inside the window leaves `ERROR_RETRYING` immediately via the
recovery re-fetch. -/
theorem c8_timeout_window :
    (∀ (s : V2.VState) (k : TickInput),
        s.apiResultReceived = true → s.currentState = API_CONNECTING →
        s.apiResultSuccess = false →
        V2.processApiResult s k =
          { s with currentState := ERROR_RETRYING,
                   animationStartTime := k.currentTime,
                   apiResultReceived := false }) ∧
    (∀ (s : V2.VState) (i : TickInput),
        s.currentState = ERROR_RETRYING → s.apiResultReceived = false →
        i.buttonPressed = false → resetWindowMatch i = false →
        ¬ u32sub i.currentTime s.animationStartTime > V2.ERROR_RETRY_WINDOW_MS →
        (V2.loopStep s i).currentState = ERROR_RETRYING ∧
        (V2.loopStep s i).apiRequestPending = s.apiRequestPending ∧
        (V2.loopStep s i).animationStartTime = s.animationStartTime) ∧
    (∀ (s : V2.VState) (j : TickInput),
        s.currentState = ERROR_RETRYING → s.apiResultReceived = false →
        j.buttonPressed = false → resetWindowMatch j = false →
        u32sub j.currentTime s.animationStartTime > V2.ERROR_RETRY_WINDOW_MS →
        (V2.loopStep s j).currentState = ERROR_FAILED) ∧
    (∀ (s : V2.VState) (i : TickInput) (b : Bool),
        s.currentState = ERROR_RETRYING → s.apiResultReceived = false →
        i.buttonPressed = true → s.apiTaskCreated = true →
        s.apiRequestPending = false → resetWindowMatch i = false →
        i.recoveryFetch = some b →
        (V2.loopStep s i).currentState = (if b then TASK_COMPLETED else TASK_PENDING)) := by
  refine ⟨?_, ?_, ?_, ?_⟩
  · intro s k hr hs ho
    exact v2ApiResult_consume_failure s k hr hs ho
  · intro s i hs hr hb hw ht
    rw [show V2.loopStep s i = V2.processMidnightReset (V2.processTimeBased
        (V2.processHandoff (V2.processButton (V2.processApiResult s i) i) i) i) i from rfl]
    rw [v2ApiResult_idle s i hr, v2Button_no_button s i hb,
      v2Handoff_skip s i (by simp [hs]), v2TimeBased_retry_wait s i hs ht,
      v2MidnightReset_no_window s i hw]
    exact ⟨hs, rfl, rfl⟩
  · intro s j hs hr hb hw ht
    rw [show V2.loopStep s j = V2.processMidnightReset (V2.processTimeBased
        (V2.processHandoff (V2.processButton (V2.processApiResult s j) j) j) j) j from rfl]
    rw [v2ApiResult_idle s j hr, v2Button_no_button s j hb,
      v2Handoff_skip s j (by simp [hs]), v2TimeBased_retry_expired s j hs ht,
      v2MidnightReset_no_window _ j hw]
  · intro s i b hs hr hb hc hp hw hf
    rw [show V2.loopStep s i = V2.processMidnightReset (V2.processTimeBased
        (V2.processHandoff (V2.processButton (V2.processApiResult s i) i) i) i) i from rfl]
    rw [v2ApiResult_idle s i hr, v2Button_recover_retrying s i b hs hb hc hp hf]
    cases b <;>
      rw [v2Handoff_skip _ i (by simp), v2TimeBased_idle _ i (by simp) (by simp),
        v2MidnightReset_no_window _ i hw]

/-- Witness for `c8_timeout_window` at a concrete `ERROR_RETRYING` state
(window opened at 1000 ms) and concrete ticks at 4000 ms (inside the
window), 7000 ms (expired) and a button press at 2000 ms. -/
theorem c8_timeout_window_witness :
    V2.processApiResult v2FailureArrived (quietTick 1000)
      = { v2FailureArrived with currentState := ERROR_RETRYING,
                                animationStartTime := 1000,
                                apiResultReceived := false } ∧
    ((V2.loopStep v2RetryState (quietTick 4000)).currentState = ERROR_RETRYING ∧
     (V2.loopStep v2RetryState (quietTick 4000)).apiRequestPending = false ∧
     (V2.loopStep v2RetryState (quietTick 4000)).animationStartTime = 1000) ∧
    (V2.loopStep v2RetryState (quietTick 7000)).currentState = ERROR_FAILED ∧
    (V2.loopStep v2RetryState (buttonTick 2000)).currentState = TASK_PENDING := by
  refine ⟨?_, ?_, ?_, ?_⟩
  · exact c8_timeout_window.1 v2FailureArrived (quietTick 1000)
      (by decide) (by decide) (by decide)
  · exact c8_timeout_window.2.1 v2RetryState (quietTick 4000)
      (by decide) (by decide) (by decide) (by decide) (by decide)
  · exact c8_timeout_window.2.2.1 v2RetryState (quietTick 7000)
      (by decide) (by decide) (by decide) (by decide) (by decide)
  · exact c8_timeout_window.2.2.2 v2RetryState (buttonTick 2000) false
      (by decide) (by decide) (by decide) (by decide) (by decide) (by decide) (by decide)

/-! ### Counter lemmas for the bounded-attempts invariant -/

theorem apiTaskStep_count (b : Bool) (s : SysState) :
    (apiTaskStep b s).errorRetryAttemptCount = s.errorRetryAttemptCount := by
  simp only [apiTaskStep]; split <;> rfl

theorem processApiResult_count_cases (s : SysState) (i : TickInput) :
    (processApiResult s i).errorRetryAttemptCount = s.errorRetryAttemptCount ∨
    (processApiResult s i).errorRetryAttemptCount = 0 := by
  simp only [processApiResult]; split_ifs <;> simp

theorem processButton_count_cases (s : SysState) (i : TickInput) :
    (processButton s i).errorRetryAttemptCount = s.errorRetryAttemptCount ∨
    (processButton s i).errorRetryAttemptCount = 0 := by
  simp only [processButton]
  cases hF : i.recoveryFetch <;> split_ifs <;> simp_all

theorem processHandoff_count (s : SysState) (i : TickInput) :
    (processHandoff s i).errorRetryAttemptCount = s.errorRetryAttemptCount := by
  simp only [processHandoff]; split <;> rfl

theorem processTimeBased_increment (s : SysState) (i : TickInput) :
    (processTimeBased s i).errorRetryAttemptCount = s.errorRetryAttemptCount ∨
    ((processTimeBased s i).errorRetryAttemptCount = s.errorRetryAttemptCount + 1 ∧
     s.errorRetryAttemptCount < MAX_API_UPDATE_RETRIES) := by
  cases htgt : s.newTargetTaskState <;>
    simp only [processTimeBased, htgt] <;> split_ifs <;> simp_all

theorem processMidnightReset_count_cases (s : SysState) (i : TickInput) :
    (processMidnightReset s i).errorRetryAttemptCount = s.errorRetryAttemptCount ∨
    (processMidnightReset s i).errorRetryAttemptCount = 0 := by
  simp only [processMidnightReset]; split_ifs <;> simp

theorem processTimeBased_count_le (s : SysState) (i : TickInput)
    (h : s.errorRetryAttemptCount ≤ MAX_API_UPDATE_RETRIES) :
    (processTimeBased s i).errorRetryAttemptCount ≤ MAX_API_UPDATE_RETRIES := by
  rcases processTimeBased_increment s i with h' | ⟨h', hlt⟩ <;> omega

theorem loopStep_count_le (s : SysState) (i : TickInput)
    (h : s.errorRetryAttemptCount ≤ MAX_API_UPDATE_RETRIES) :
    (loopStep s i).errorRetryAttemptCount ≤ MAX_API_UPDATE_RETRIES := by
  have hA : (processApiResult s i).errorRetryAttemptCount ≤ MAX_API_UPDATE_RETRIES := by
    rcases processApiResult_count_cases s i with h' | h' <;> omega
  have hB : (processButton (processApiResult s i) i).errorRetryAttemptCount ≤
      MAX_API_UPDATE_RETRIES := by
    rcases processButton_count_cases (processApiResult s i) i with h' | h' <;> omega
  have hC : (processHandoff (processButton (processApiResult s i) i) i).errorRetryAttemptCount ≤
      MAX_API_UPDATE_RETRIES := by
    rw [processHandoff_count]; exact hB
  have hD := processTimeBased_count_le
    (processHandoff (processButton (processApiResult s i) i) i) i hC
  show (processMidnightReset (processTimeBased (processHandoff
    (processButton (processApiResult s i) i) i) i) i).errorRetryAttemptCount ≤
      MAX_API_UPDATE_RETRIES
  rcases processMidnightReset_count_cases (processTimeBased (processHandoff
    (processButton (processApiResult s i) i) i) i) i with h' | h' <;> omega

theorem setupState_count (w tc : Bool) (f : Option Bool) :
    (setupState w tc f).errorRetryAttemptCount = 0 := by
  cases w <;> cases tc <;> rcases f with _ | b <;> rfl

/-- Claim C10: in the bounded-attempts firmware, `errorRetryAttemptCount`
never exceeds `MAX_API_UPDATE_RETRIES = 3` in any reachable state; the
only block that increases it (the retry scheduler) increments by one and
only when the count is strictly below the bound; a fresh user-initiated
request (button press from a resting task state with an idle slot) resets
it to 0, and so does every consumed submission success. -/
theorem c10_retry_count_invariant :
    (∀ s : SysState, Reachable s →
        s.errorRetryAttemptCount ≤ MAX_API_UPDATE_RETRIES) ∧
    (∀ (s : SysState) (i : TickInput),
        (processTimeBased s i).errorRetryAttemptCount = s.errorRetryAttemptCount ∨
        ((processTimeBased s i).errorRetryAttemptCount = s.errorRetryAttemptCount + 1 ∧
         s.errorRetryAttemptCount < MAX_API_UPDATE_RETRIES)) ∧
    (∀ (s : SysState) (i : TickInput),
        i.buttonPressed = true → s.apiTaskCreated = true → s.apiRequestPending = false →
        (s.currentState = TASK_PENDING ∨ s.currentState = TASK_COMPLETED) →
        (processButton s i).errorRetryAttemptCount = 0) ∧
    (∀ (s : SysState) (i : TickInput),
        s.apiResultReceived = true → s.currentState = API_CONNECTING →
        s.apiResultSuccess = true →
        (processApiResult s i).errorRetryAttemptCount = 0) := by
  refine ⟨?_, processTimeBased_increment, ?_, ?_⟩
  · intro s h
    induction h with
    | boot w tc f => rw [setupState_count]; omega
    | tick s i _ ih => exact loopStep_count_le s i ih
    | api s b _ ih => rw [apiTaskStep_count]; exact ih
  · intro s i hb hc hp hst
    rcases hst with h | h
    · rw [processButton_press_from_pending s i hb hc hp h]
    · rw [processButton_press_from_completed s i hb hc hp h]
  · intro s i h1 h2 h3
    rw [processApiResult_consume_success s i h1 h2 h3]

/-- Witness for `c10_retry_count_invariant` at a normally booted device,
a concrete button press and a concrete consumed success. -/
theorem c10_retry_count_invariant_witness :
    bootPending.errorRetryAttemptCount ≤ MAX_API_UPDATE_RETRIES ∧
    (processButton bootPending (buttonTick 5)).errorRetryAttemptCount = 0 ∧
    (processApiResult
      { bootPending with
          currentState := API_CONNECTING
          apiResultReceived := true
          apiResultSuccess := true }
      (quietTick 6)).errorRetryAttemptCount = 0 := by
  refine ⟨?_, ?_, ?_⟩
  · exact c10_retry_count_invariant.1 bootPending (Reachable.boot true true (some false))
  · exact c10_retry_count_invariant.2.2.1 bootPending (buttonTick 5)
      (by decide) (by decide) (by decide) (Or.inl (by decide))
  · exact c10_retry_count_invariant.2.2.2 _ (quietTick 6)
      (by decide) (by decide) (by decide)
